import Mathlib

/-!
Verification of the task/workflow orchestration core of the AI Workflow Builder
repository (file src/ai_workflow_builder.py, class AIWorkflowBuilder).

Modelling conventions for the shallow embedding:
* Python dict-shaped data (input_data, output_data, JSON file contents) is the
  inductive JValue / Dict below; association lists model dict insertion order.
* Wall-clock timestamps (datetime.now) are modelled by a natural-number clock
  stored in the builder state; each now() call reads the clock and advances it,
  which models the monotonicity of real time.  ISO strings become the Nat value.
* The OpenAI chat completion backend is an external collaborator; it is a
  parameter of type Backend mapping a request to either a response text or a
  raised exception.  Pandas table loading (data-analysis task) is likewise a
  parameter of type DataFS; both match section 6 of the specification, which
  declares them external interfaces.
* Raised Python exceptions are values of PyError; fallible operations return
  an Except result PAIRED with the post-state, because a Python exception
  leaves the mutations performed so far in place.
* The results directory is the files field of the state, mapping a path to the
  JSON value serialized into that file.  json.dump followed by json.load is the
  identity on such values (the json library contract), so a parsed-back file is
  modelled by the stored value itself.
-/

namespace AWB

/-- JSON-like values standing for Python objects stored in task dictionaries. -/
inductive JValue where
  | null : JValue
  | str (s : String) : JValue
  | nat (n : Nat) : JValue
  | rat (q : Rat) : JValue
  | bool (b : Bool) : JValue
  | arr (elems : List JValue) : JValue
  | obj (fields : List (String × JValue)) : JValue

/-- Python dict with string keys, in insertion order. -/
abbrev Dict := List (String × JValue)

/-- Python exceptions that the orchestration core can raise or observe. -/
inductive PyError where
  | valueError (m : String) : PyError
  | zeroDivisionError : PyError
  | typeError (m : String) : PyError
  | attributeError (m : String) : PyError
  | unboundLocalError (m : String) : PyError
  | backendError (m : String) : PyError
deriving DecidableEq

/-- Rendering str(e) of an exception, as recorded into output_data on failure.
ZeroDivisionError carries the standard CPython message. -/
def PyError.msg : PyError → String
  | .valueError m => m
  | .zeroDivisionError => "division by zero"
  | .typeError m => m
  | .attributeError m => m
  | .unboundLocalError m => m
  | .backendError m => m

/-- The closed TaskType enumeration of the source. -/
inductive TaskType where
  | content_writing
  | data_analysis
  | text_summarization
  | email_generation
  | translation
  | code_generation
deriving DecidableEq

/-- The .value tag of each enum member. -/
def TaskType.value : TaskType → String
  | .content_writing => "content_writing"
  | .data_analysis => "data_analysis"
  | .text_summarization => "text_summarization"
  | .email_generation => "email_generation"
  | .translation => "translation"
  | .code_generation => "code_generation"

/-- Rendering str(TaskType.X), used by json.dump(default=str) on export. -/
def TaskType.enumStr : TaskType → String
  | .content_writing => "TaskType.CONTENT_WRITING"
  | .data_analysis => "TaskType.DATA_ANALYSIS"
  | .text_summarization => "TaskType.TEXT_SUMMARIZATION"
  | .email_generation => "TaskType.EMAIL_GENERATION"
  | .translation => "TaskType.TRANSLATION"
  | .code_generation => "TaskType.CODE_GENERATION"

/-- The Task dataclass of the source.  created_at is set by post-init from the
clock; completed_at stays none until a successful execution. -/
structure Task where
  id : String
  type : TaskType
  title : String
  description : String
  input_data : Dict
  output_data : Option Dict
  status : String
  created_at : Nat
  completed_at : Option Nat

/-- Decimal digits of a natural number, least significant first, computed with
the number itself as fuel so that the definition is structurally recursive and
kernel-reducible.  decDigitsAux fuel n agrees with Nat.digits 10 n for n below
or equal to fuel (proved later). -/
def decDigitsAux : Nat → Nat → List Nat
  | 0, _ => []
  | _ + 1, 0 => []
  | fuel + 1, n + 1 => ((n + 1) % 10) :: decDigitsAux fuel ((n + 1) / 10)

/-- Decimal digits of n, least significant first ([] for 0). -/
def decDigits (n : Nat) : List Nat := decDigitsAux n n

/-- Model of Python str(n) for a natural number: its decimal rendering. -/
def decRepr (n : Nat) : String :=
  if n = 0 then "0" else ((decDigits n).reverse.map Nat.digitChar).asString

/-- Decimal value of a digit character. -/
def charVal (c : Char) : Nat := c.toNat - 48

/-- Parse a decimal string back to a natural number (left inverse of decRepr,
proved later; used only to establish injectivity of decRepr). -/
def decParse (s : String) : Nat :=
  s.data.foldl (fun a c => 10 * a + charVal c) 0

/-- Two-digit zero-padded rendering of n below 100, as strftime produces for
each of the hour, minute and second fields. -/
def twoDigit (n : Nat) : String :=
  String.mk [Nat.digitChar (n / 10 % 10), Nat.digitChar (n % 10)]

/-- Model of strftime with format HHMMSS applied to the clock value c, reading
c as a count of seconds.  Always six characters long. -/
def hhmmss (c : Nat) : String :=
  twoDigit (c / 3600 % 24) ++ twoDigit (c / 60 % 60) ++ twoDigit (c % 60)

/-- The id string add_task builds for the task at index n of the task list when
the clock reads c: the f-string task_{index}_{strftime HHMMSS}. -/
def taskIdStr (n : Nat) (c : Nat) : String :=
  "task_" ++ decRepr n ++ "_" ++ hhmmss c

/-- The whitespace characters Python str.split() splits on. -/
def isPySpace (c : Char) : Bool :=
  c = ' ' || c = '\t' || c = '\n' || c = '\r' || c = '\x0b' || c = '\x0c'

/-- Helper for pySplit: walk the characters, accumulating the current word
reversed; whitespace runs produce no empty words, as in Python str.split(). -/
def pySplitChars : List Char → List Char → List String
  | [], acc => if acc.isEmpty then [] else [String.mk acc.reverse]
  | c :: cs, acc =>
    if isPySpace c then
      if acc.isEmpty then pySplitChars cs []
      else String.mk acc.reverse :: pySplitChars cs []
    else pySplitChars cs (c :: acc)

/-- Model of Python text.split() with no separator argument. -/
def pySplit (s : String) : List String := pySplitChars s.data []

/-- Model of len(text.split()): the whitespace-token count used for word_count,
original_length and summary_length throughout the source. -/
def wordCount (s : String) : Nat := (pySplit s).length

/-- Python truthiness of a value, as used by the guards if not data_path and
compression_ratio ... if text else 0. -/
def JValue.pyTruthy : JValue → Bool
  | .null => false
  | .str s => s != ""
  | .nat n => n != 0
  | .rat q => q != 0
  | .bool b => b
  | .arr l => !l.isEmpty
  | .obj l => !l.isEmpty

/-- Model of str(v) as interpolated into f-string prompts.  Prompt text is only
ever consumed by the universally quantified backend, so the rendering of
composite values is abstracted to a tag. -/
def JValue.pyStr : JValue → String
  | .null => "None"
  | .str s => s
  | .nat n => decRepr n
  | .rat _ => "float"
  | .bool b => if b then "True" else "False"
  | .arr _ => "list"
  | .obj _ => "dict"

/-- Model of the Python expression v * 2 (max_length * 2 at the summarization
call site): numbers double, sequences repeat, other values raise TypeError. -/
def pyMulTwo : JValue → Except PyError JValue
  | .nat n => .ok (.nat (2 * n))
  | .rat q => .ok (.rat (2 * q))
  | .str s => .ok (.str (s ++ s))
  | .bool b => .ok (.nat (2 * (if b then 1 else 0)))
  | .arr l => .ok (.arr (l ++ l))
  | .null => .error (.typeError "unsupported operand type for *: NoneType and int")
  | .obj _ => .error (.typeError "unsupported operand type for *: dict and int")

/-- Model of len(v.split()): only strings have a split attribute, every other
value raises AttributeError. -/
def pySplitLen : JValue → Except PyError Nat
  | .str s => .ok (wordCount s)
  | _ => .error (.attributeError "object has no attribute split")

/-- Python dict .get(key, default): the value at the first matching key, else
the default. -/
def dictGet (d : Dict) (k : String) (dflt : JValue) : JValue :=
  match d.find? (fun p => p.1 == k) with
  | some p => p.2
  | none => dflt

/-- Lookup in a string-keyed association list (Python dict indexing / the in
operator on workflow names and file paths). -/
def alistGet? {α : Type} (l : List (String × α)) (k : String) : Option α :=
  (l.find? (fun p => p.1 == k)).map (fun p => p.2)

/-- Python dict assignment d[k] = v: overwrite in place when the key exists,
append otherwise (insertion order preserved). -/
def alistSet {α : Type} (l : List (String × α)) (k : String) (v : α) :
    List (String × α) :=
  if l.any (fun p => p.1 == k) then
    l.map (fun p => if p.1 == k then (k, v) else p)
  else l ++ [(k, v)]

/-- One chat-completion request as assembled by the source: a model name, the
system and user messages, the max_tokens bound (a Python value, since the code
can pass a non-integer through max_length * 2) and an optional temperature. -/
structure ChatRequest where
  model : String
  systemMsg : String
  userMsg : String
  max_tokens : JValue
  temperature : Option Rat

/-- The external generation backend (openai.ChatCompletion.acreate): any
request either returns the generated text or raises. -/
def Backend : Type := ChatRequest → Except PyError String

/-- Abstraction of a pandas frame as far as analyze_data reads it: row count,
columns, dtypes, missing-value counts, describe() output and whether a numeric
column exists.  Modelled from the spec: tabular file parsing is an external
collaborator (specification sections 1 and 6). -/
structure Frame where
  nrows : Nat
  columns : List String
  dtypes : Dict
  missing : Dict
  stats : Dict
  hasNumeric : Bool

/-- The data filesystem seen by the analysis task: none means the path does not
exist, some (.error e) a file whose pandas read raises, some (.ok f) a parsed
frame. -/
def DataFS : Type := String → Option (Except PyError Frame)

/-- Method _generate_content of the source. -/
def generate_content (backend : Backend) (input : Dict) : Except PyError Dict :=
  let prompt := dictGet input "prompt" (.str "")
  let content_type := dictGet input "content_type" (.str "article")
  let language := dictGet input "language" (.str "arabic")
  let system_prompt :=
    "You are a professional content writer. Write a " ++ content_type.pyStr ++
      " in " ++ language.pyStr ++ " based on the following request."
  match backend { model := "gpt-3.5-turbo", systemMsg := system_prompt,
                  userMsg := prompt.pyStr, max_tokens := .nat 2000,
                  temperature := some ((7 : Rat) / 10) } with
  | .error e => .error e
  | .ok content =>
    .ok [("content", .str content),
         ("word_count", .nat (wordCount content)),
         ("content_type", content_type),
         ("language", language)]

/-- Method _analyze_data of the source.  The pandas interaction goes through
the DataFS collaborator; the statistics fields come from the frame. -/
def analyze_data (backend : Backend) (dfs : DataFS) (input : Dict) :
    Except PyError Dict :=
  let data_path := dictGet input "data_path" .null
  if !data_path.pyTruthy then .error (.valueError "data file not found")
  else
    match data_path with
    | .str p =>
      match dfs p with
      | none => .error (.valueError "data file not found")
      | some readResult =>
        if p.endsWith ".csv" || p.endsWith ".json" then
          match readResult with
          | .error e => .error e
          | .ok df =>
            let analysis : Dict :=
              [("rows_count", .nat df.nrows),
               ("columns_count", .nat df.columns.length),
               ("columns", .arr (df.columns.map JValue.str)),
               ("data_types", .obj df.dtypes),
               ("missing_values", .obj df.missing),
               ("basic_stats", if df.hasNumeric then .obj df.stats else .obj [])]
            match backend { model := "gpt-3.5-turbo",
                            systemMsg := "You are an expert data analyst.",
                            userMsg := "Analyze this data summary.",
                            max_tokens := .nat 1000, temperature := none } with
            | .error e => .error e
            | .ok insights => .ok (analysis ++ [("ai_insights", .str insights)])
        else .error (.valueError "unsupported file type")
    | _ => .error (.typeError "argument should be a str or an os.PathLike object")

/-- Method _summarize_text of the source.  The compression_ratio expression is
len(summary.split()) / len(text.split()) if text else 0: the guard tests the
truthiness of the text string, and the division raises ZeroDivisionError when
the text splits into zero words; the else branch yields the int 0. -/
def summarize_text (backend : Backend) (input : Dict) : Except PyError Dict :=
  let text := dictGet input "text" (.str "")
  let max_length := dictGet input "max_length" (.nat 150)
  let language := dictGet input "language" (.str "arabic")
  let prompt := "Summarize the following text in " ++ max_length.pyStr ++
    " words or fewer in " ++ language.pyStr ++ ": " ++ text.pyStr
  match pyMulTwo max_length with
  | .error e => .error e
  | .ok mt =>
    match backend { model := "gpt-3.5-turbo",
                    systemMsg := "You are an expert text summarizer in " ++
                      language.pyStr,
                    userMsg := prompt, max_tokens := mt,
                    temperature := none } with
    | .error e => .error e
    | .ok summary =>
      match pySplitLen text with
      | .error e => .error e
      | .ok original_length =>
        if text.pyTruthy then
          if original_length = 0 then .error .zeroDivisionError
          else
            .ok [("original_length", .nat original_length),
                 ("summary", .str summary),
                 ("summary_length", .nat (wordCount summary)),
                 ("compression_ratio",
                   .rat ((wordCount summary : Rat) / (original_length : Rat)))]
        else
          .ok [("original_length", .nat original_length),
               ("summary", .str summary),
               ("summary_length", .nat (wordCount summary)),
               ("compression_ratio", .nat 0)]

/-- Method _generate_email of the source. -/
def generate_email (backend : Backend) (input : Dict) : Except PyError Dict :=
  let purpose := dictGet input "purpose" (.str "")
  let recipient := dictGet input "recipient" (.str "")
  let tone := dictGet input "tone" (.str "professional")
  let language := dictGet input "language" (.str "arabic")
  let prompt := "Write an email in " ++ language.pyStr ++ " with tone " ++
    tone.pyStr ++ " purpose " ++ purpose.pyStr ++ " recipient " ++
    recipient.pyStr
  match backend { model := "gpt-3.5-turbo",
                  systemMsg := "You are a professional email writing assistant",
                  userMsg := prompt, max_tokens := .nat 800,
                  temperature := none } with
  | .error e => .error e
  | .ok email_content =>
    .ok [("email_content", .str email_content),
         ("purpose", purpose),
         ("tone", tone),
         ("language", language)]

/-- Method _translate_text of the source; max_tokens is len(text.split()) * 2,
raising AttributeError before the backend call when text is not a string. -/
def translate_text (backend : Backend) (input : Dict) : Except PyError Dict :=
  let text := dictGet input "text" (.str "")
  let source_lang := dictGet input "source_language" (.str "auto")
  let target_lang := dictGet input "target_language" (.str "arabic")
  let prompt := "Translate the following text from " ++ source_lang.pyStr ++
    " to " ++ target_lang.pyStr ++ ": " ++ text.pyStr
  match pySplitLen text with
  | .error e => .error e
  | .ok n =>
    match backend { model := "gpt-3.5-turbo",
                    systemMsg := "You are a professional translator",
                    userMsg := prompt, max_tokens := .nat (2 * n),
                    temperature := none } with
    | .error e => .error e
    | .ok translation =>
      .ok [("original_text", text),
           ("translated_text", .str translation),
           ("source_language", source_lang),
           ("target_language", target_lang)]

/-- Method _generate_code of the source. -/
def generate_code (backend : Backend) (input : Dict) : Except PyError Dict :=
  let description := dictGet input "description" (.str "")
  let language := dictGet input "programming_language" (.str "python")
  let prompt := "Write " ++ language.pyStr ++ " code for the following: " ++
    description.pyStr
  match backend { model := "gpt-3.5-turbo",
                  systemMsg := "You are an expert software developer in " ++
                    language.pyStr,
                  userMsg := prompt, max_tokens := .nat 1500,
                  temperature := none } with
  | .error e => .error e
  | .ok code =>
    .ok [("code", .str code),
         ("programming_language", language),
         ("description", description)]

/-- The if/elif dispatch chain of execute_task over task.type with the task
input_data.  The six enum members are exhaustive, so the defensive unsupported
branch of the source is unreachable and has no counterpart here. -/
def dispatch (backend : Backend) (dfs : DataFS) (ty : TaskType) (input : Dict) :
    Except PyError Dict :=
  match ty with
  | .content_writing => generate_content backend input
  | .data_analysis => analyze_data backend dfs input
  | .text_summarization => summarize_text backend input
  | .email_generation => generate_email backend input
  | .translation => translate_text backend input
  | .code_generation => generate_code backend input

/-- Serialization asdict(task) as json.dump(default=str) renders it: the enum
becomes its str form, timestamps their (clock) value, None becomes null. -/
def Task.asdict (t : Task) : JValue :=
  .obj [("id", .str t.id),
        ("type", .str t.type.enumStr),
        ("title", .str t.title),
        ("description", .str t.description),
        ("input_data", .obj t.input_data),
        ("output_data", match t.output_data with
          | some d => .obj d
          | none => .null),
        ("status", .str t.status),
        ("created_at", .nat t.created_at),
        ("completed_at", match t.completed_at with
          | some c => .nat c
          | none => .null)]

/-- Outcome of executing one task: the returned-or-raised result, the mutated
task, the advanced clock, and the results-directory write of _save_results
(performed only on success). -/
structure TaskExec where
  result : Except PyError Dict
  task : Task
  clock : Nat
  savedFile : Option (String × JValue)

/-- Method execute_task of the source, at the level of the single task object
it mutates: set status running, dispatch on the type; on success record
output_data, status completed and completed_at (a now() call), then save the
full record to results/<id>_<type.value>.json; on any exception record status
failed and output_data with the str of the exception, leave completed_at
untouched, and re-raise (the result field carries the error). -/
def execute_task (backend : Backend) (dfs : DataFS) (clock : Nat) (t : Task) :
    TaskExec :=
  let t1 : Task := { t with status := "running" }
  match dispatch backend dfs t.type t.input_data with
  | .ok result =>
    let t2 : Task := { t1 with output_data := some result,
                               status := "completed",
                               completed_at := some clock }
    { result := .ok result, task := t2, clock := clock + 1,
      savedFile := some ("results/" ++ t2.id ++ "_" ++ t2.type.value ++ ".json",
                         Task.asdict t2) }
  | .error e =>
    { result := .error e,
      task := { t1 with status := "failed",
                        output_data := some [("error", .str e.msg)] },
      clock := clock, savedFile := none }

/-- The AIWorkflowBuilder object state: the api key, the task list, the
workflow registry, the contents of the results directory, and the clock. -/
structure AIWorkflowBuilder where
  api_key : String
  tasks : List Task
  workflows : List (String × List String)
  files : List (String × JValue)
  clock : Nat

/-- A fresh builder (the constructor after a successful api-key check; the
results directory starts as whatever mkdir leaves, modelled empty). -/
def initBuilder (key : String) (c : Nat) : AIWorkflowBuilder :=
  { api_key := key, tasks := [], workflows := [], files := [], clock := c }

/-- Method add_task of the source: the id embeds the current task-list length
and the strftime HHMMSS of the first now() call; the dataclass post-init takes
a second now() for created_at; the task is appended. -/
def add_task (s : AIWorkflowBuilder) (ty : TaskType) (title description : String)
    (input : Dict) : String × AIWorkflowBuilder :=
  let task_id := taskIdStr s.tasks.length s.clock
  let t : Task := { id := task_id, type := ty, title := title,
                    description := description, input_data := input,
                    output_data := none, status := "pending",
                    created_at := s.clock + 1, completed_at := none }
  (task_id, { s with tasks := s.tasks ++ [t], clock := s.clock + 2 })

/-- Method create_workflow: dict assignment, overwriting any existing entry. -/
def create_workflow (s : AIWorkflowBuilder) (name : String)
    (task_ids : List String) : AIWorkflowBuilder :=
  { s with workflows := alistSet s.workflows name task_ids }

/-- Executing the task object at index i of the task list: the in-place
mutation of the aliased element becomes List.set, and the _save_results write
lands in the files map.  Out-of-range indices cannot arise from the source
(callers always pass members of self.tasks); the totalizing branch raises. -/
def executeTaskAt (backend : Backend) (dfs : DataFS) (s : AIWorkflowBuilder)
    (i : Nat) : Except PyError Dict × AIWorkflowBuilder :=
  match s.tasks.get? i with
  | none => (.error (.valueError "task index out of range"), s)
  | some t =>
    let ex := execute_task backend dfs s.clock t
    (ex.result,
     { s with tasks := s.tasks.set i ex.task, clock := ex.clock,
              files := match ex.savedFile with
                | some (p, v) => alistSet s.files p v
                | none => s.files })

/-- The loop of execute_workflow: walk the task list once, executing each task
whose id is contained in the workflow id list (the filter
[t for t in self.tasks if t.id in task_ids] followed by sequential execution
of the selected references).  The walk rebuilds the list, which models the
in-place mutation of the selected elements; an exception stops the loop,
keeps the mutations made so far, and discards the local results list. -/
def execTasksLoop (backend : Backend) (dfs : DataFS) (ids : List String) :
    List Task → Nat →
      Except PyError (List Dict) × List Task × Nat × List (String × JValue)
  | [], c => (.ok [], [], c, [])
  | t :: rest, c =>
    if ids.contains t.id then
      let ex := execute_task backend dfs c t
      match ex.result with
      | .ok r =>
        let (res, rest', c', ws) := execTasksLoop backend dfs ids rest ex.clock
        ((res.map fun l => r :: l), ex.task :: rest', c',
         ex.savedFile.toList ++ ws)
      | .error e => (.error e, ex.task :: rest, ex.clock, ex.savedFile.toList)
    else
      let (res, rest', c', ws) := execTasksLoop backend dfs ids rest c
      (res, t :: rest', c', ws)

/-- Method execute_workflow of the source: resolve the name (ValueError when
unregistered), select the existing tasks whose ids occur in the stored id
list, execute them sequentially, stopping at the first exception. -/
def execute_workflow (backend : Backend) (dfs : DataFS) (s : AIWorkflowBuilder)
    (name : String) : Except PyError (List Dict) × AIWorkflowBuilder :=
  match alistGet? s.workflows name with
  | none => (.error (.valueError ("workflow not found: " ++ name)), s)
  | some task_ids =>
    let (res, tasks', c', ws) := execTasksLoop backend dfs task_ids s.tasks s.clock
    (res, { s with tasks := tasks', clock := c',
                   files := ws.foldl (fun fs p => alistSet fs p.1 p.2) s.files })

/-- Method get_task_status of the source: the full record, or an error dict
for a missing id (never a raise). -/
def get_task_status (s : AIWorkflowBuilder) (task_id : String) : JValue :=
  match s.tasks.find? (fun t => t.id == task_id) with
  | none => .obj [("error", .str "task not found")]
  | some t => Task.asdict t

/-- Method list_tasks of the source: every task record, insertion order. -/
def list_tasks (s : AIWorkflowBuilder) : List JValue :=
  s.tasks.map Task.asdict

/-- Method export_workflow_results of the source: resolve the name (ValueError
when unregistered), select the tasks whose ids occur in the stored list,
assemble the results object with an execution_date taken from now(); when the
format is json, write <name>_results.json into the results directory; then
return str(filepath) - but filepath was only assigned inside the json branch,
so any other format reaches the return with the local unbound and raises
UnboundLocalError, producing no file. -/
def export_workflow_results (s : AIWorkflowBuilder) (name : String)
    (format : String) : Except PyError String × AIWorkflowBuilder :=
  match alistGet? s.workflows name with
  | none => (.error (.valueError ("workflow not found: " ++ name)), s)
  | some task_ids =>
    let workflow_tasks := s.tasks.filter (fun t => task_ids.contains t.id)
    let results : JValue :=
      .obj [("workflow_name", .str name),
            ("execution_date", .nat s.clock),
            ("tasks", .arr (workflow_tasks.map Task.asdict))]
    if format == "json" then
      let filepath := "results/" ++ name ++ "_results.json"
      (.ok filepath,
       { s with files := alistSet s.files filepath results, clock := s.clock + 1 })
    else
      (.error (.unboundLocalError "cannot access local variable filepath"),
       { s with clock := s.clock + 1 })

/-- States of one builder instance reachable through the public operations of
the Orchestrator (any backend, data filesystem, arguments and interleaving). -/
inductive Reach : AIWorkflowBuilder → Prop where
  | init (key : String) (c : Nat) : Reach (initBuilder key c)
  | add (s : AIWorkflowBuilder) (ty : TaskType) (title description : String)
      (input : Dict) : Reach s → Reach (add_task s ty title description input).2
  | createWf (s : AIWorkflowBuilder) (name : String) (ids : List String) :
      Reach s → Reach (create_workflow s name ids)
  | execAt (backend : Backend) (dfs : DataFS) (s : AIWorkflowBuilder) (i : Nat) :
      Reach s → Reach (executeTaskAt backend dfs s i).2
  | execWf (backend : Backend) (dfs : DataFS) (s : AIWorkflowBuilder)
      (name : String) : Reach s → Reach (execute_workflow backend dfs s name).2
  | exportWf (s : AIWorkflowBuilder) (name format : String) :
      Reach s → Reach (export_workflow_results s name format).2

end AWB

namespace AWB

lemma decDigitsAux_eq : ∀ fuel n : Nat, n ≤ fuel → decDigitsAux fuel n = Nat.digits 10 n := by
  intro fuel
  induction fuel with
  | zero =>
    intro n hn
    interval_cases n
    simp [decDigitsAux, Nat.digits_zero]
  | succ f ih =>
    intro n hn
    match n with
    | 0 => simp [decDigitsAux, Nat.digits_zero]
    | m + 1 =>
      rw [decDigitsAux, Nat.digits_def' (by norm_num : (1:Nat) < 10) (Nat.succ_pos m)]
      have hdiv : (m + 1) / 10 ≤ f := by
        have h1 : (m + 1) / 10 < m + 1 := Nat.div_lt_self (Nat.succ_pos m) (by norm_num)
        omega
      rw [ih _ hdiv]

lemma decDigits_eq (n : Nat) : decDigits n = Nat.digits 10 n :=
  decDigitsAux_eq n n le_rfl

lemma charVal_digitChar {d : Nat} (hd : d < 10) : charVal (Nat.digitChar d) = d := by
  interval_cases d <;> rfl

lemma foldl_digits (ds : List Nat) (hds : ∀ d ∈ ds, d < 10) (a : Nat) :
    List.foldl (fun a c => 10 * a + charVal c) a ((ds.map Nat.digitChar).reverse)
      = a * 10 ^ ds.length + Nat.ofDigits 10 ds := by
  induction ds generalizing a with
  | nil => simp
  | cons d rest ih =>
    have hd : d < 10 := hds d (List.mem_cons_self d rest)
    have hrest : ∀ x ∈ rest, x < 10 := fun x hx => hds x (List.mem_cons_of_mem d hx)
    simp only [List.map_cons, List.reverse_cons, List.foldl_append, List.foldl_cons,
      List.foldl_nil, ih hrest, charVal_digitChar hd, Nat.ofDigits_cons,
      List.length_cons]
    ring

lemma decParse_decRepr (n : Nat) : decParse (decRepr n) = n := by
  by_cases h0 : n = 0
  · subst h0; rfl
  · have hpos : 0 < n := Nat.pos_of_ne_zero h0
    have hds : ∀ d ∈ Nat.digits 10 n, d < 10 :=
      fun d hd => Nat.digits_lt_base (by norm_num) hd
    unfold decRepr
    rw [if_neg h0]
    unfold decParse
    have hdata : (((decDigits n).reverse.map Nat.digitChar).asString).data
        = ((decDigits n).map Nat.digitChar).reverse := by
      rw [show (((decDigits n).reverse.map Nat.digitChar).asString).data
            = (decDigits n).reverse.map Nat.digitChar from rfl,
          List.map_reverse]
    rw [hdata, decDigits_eq, foldl_digits _ hds 0]
    simp [Nat.ofDigits_digits]

lemma decRepr_inj {m n : Nat} (h : decRepr m = decRepr n) : m = n := by
  have := congrArg decParse h
  rwa [decParse_decRepr, decParse_decRepr] at this

lemma twoDigit_length (n : Nat) : (twoDigit n).length = 2 := rfl

lemma hhmmss_length (c : Nat) : (hhmmss c).length = 6 := by
  unfold hhmmss
  rw [String.length_append, String.length_append, twoDigit_length, twoDigit_length,
    twoDigit_length]

lemma taskIdStr_inj {m n cm cn : Nat} (h : taskIdStr m cm = taskIdStr n cn) :
    m = n := by
  have hdata := congrArg String.data h
  unfold taskIdStr at hdata
  simp only [String.data_append] at hdata
  have hlen : (hhmmss cm).data.length = (hhmmss cn).data.length := by
    have h1 : (hhmmss cm).data.length = (hhmmss cm).length := rfl
    have h2 : (hhmmss cn).data.length = (hhmmss cn).length := rfl
    rw [h1, h2, hhmmss_length, hhmmss_length]
  have hpair := (List.append_inj' hdata hlen).1
  have hmid := List.append_cancel_right hpair
  have hrm := List.append_cancel_left hmid
  exact decRepr_inj (String.ext hrm)

end AWB

namespace AWB

lemma execute_task_ok {backend : Backend} {dfs : DataFS} {c : Nat} {t : Task}
    {r : Dict} (h : dispatch backend dfs t.type t.input_data = .ok r) :
    execute_task backend dfs c t =
      { result := .ok r,
        task := { t with status := "completed", output_data := some r,
                         completed_at := some c },
        clock := c + 1,
        savedFile := some ("results/" ++ t.id ++ "_" ++ t.type.value ++ ".json",
          Task.asdict { t with status := "completed", output_data := some r,
                               completed_at := some c }) } := by
  unfold execute_task
  rw [h]

lemma execute_task_err {backend : Backend} {dfs : DataFS} {c : Nat} {t : Task}
    {e : PyError} (h : dispatch backend dfs t.type t.input_data = .error e) :
    execute_task backend dfs c t =
      { result := .error e,
        task := { t with status := "failed",
                         output_data := some [("error", .str e.msg)] },
        clock := c, savedFile := none } := by
  unfold execute_task
  rw [h]

lemma execute_task_id (backend : Backend) (dfs : DataFS) (c : Nat) (t : Task) :
    (execute_task backend dfs c t).task.id = t.id := by
  cases h : dispatch backend dfs t.type t.input_data with
  | ok r => rw [execute_task_ok h]
  | error e => rw [execute_task_err h]

lemma execute_task_clock_le (backend : Backend) (dfs : DataFS) (c : Nat)
    (t : Task) : c ≤ (execute_task backend dfs c t).clock := by
  cases h : dispatch backend dfs t.type t.input_data with
  | ok r => rw [execute_task_ok h]; exact Nat.le_succ c
  | error e => rw [execute_task_err h]

lemma dispatch_ok_ne_nil {backend : Backend} {dfs : DataFS} {ty : TaskType}
    {input : Dict} {r : Dict}
    (h : dispatch backend dfs ty input = .ok r) : r ≠ [] := by
  cases ty <;>
    simp only [dispatch, generate_content, analyze_data, summarize_text,
      generate_email, translate_text, generate_code] at h <;>
    (repeat' split at h) <;>
    first
    | (injection h with h; subst h; simp)
    | injection h

/-- Per-task part of the state invariant at clock c: the task was created
before c, and a completed task carries a non-empty output and a completion
stamp no earlier than its creation stamp. -/
def TaskOK (c : Nat) (t : Task) : Prop :=
  t.created_at < c ∧
  (t.status = "completed" →
    (∃ d, t.output_data = some d ∧ d ≠ []) ∧
    ∃ cc, t.completed_at = some cc ∧ t.created_at ≤ cc)

lemma TaskOK.mono {c c' : Nat} (h : c ≤ c') {t : Task} (ht : TaskOK c t) :
    TaskOK c' t :=
  ⟨Nat.lt_of_lt_of_le ht.1 h, ht.2⟩

lemma execute_task_TaskOK {backend : Backend} {dfs : DataFS} {c : Nat}
    {t : Task} (ht : TaskOK c t) :
    TaskOK (execute_task backend dfs c t).clock
      (execute_task backend dfs c t).task := by
  cases h : dispatch backend dfs t.type t.input_data with
  | ok r =>
    rw [execute_task_ok h]
    refine ⟨Nat.lt_succ_of_lt ht.1, fun _ => ⟨⟨r, rfl, dispatch_ok_ne_nil h⟩,
      c, rfl, Nat.le_of_lt ht.1⟩⟩
  | error e =>
    rw [execute_task_err h]
    exact ⟨ht.1, fun hst => absurd hst (by simp)⟩

/-- State invariant: every task satisfies TaskOK at the current clock, and the
task at index i carries the id add_task minted for index i. -/
def Inv (s : AIWorkflowBuilder) : Prop :=
  (∀ t ∈ s.tasks, TaskOK s.clock t) ∧
  ∀ i t, s.tasks.get? i = some t → ∃ c, t.id = taskIdStr i c

lemma execTasksLoop_track (backend : Backend) (dfs : DataFS) (ids : List String) :
    ∀ (ts : List Task) (c : Nat) res ts' c' ws,
      execTasksLoop backend dfs ids ts c = (res, ts', c', ws) →
      c ≤ c' ∧ ts'.length = ts.length ∧
      ∀ i t', ts'.get? i = some t' →
        ∃ t, ts.get? i = some t ∧ t'.id = t.id ∧
          (TaskOK c t → TaskOK c' t') := by
  intro ts
  induction ts with
  | nil =>
    intro c res ts' c' ws h
    simp only [execTasksLoop] at h
    injection h with h1 h2
    injection h2 with h2 h3
    injection h3 with h3 h4
    subst h2; subst h3
    exact ⟨le_rfl, rfl, fun i t' hi => by simp at hi⟩
  | cons t rest ih =>
    intro c res ts' c' ws h
    simp only [execTasksLoop] at h
    split at h
    · -- the id of t occurs in the workflow id list
      rcases hres : (execute_task backend dfs c t).result with e | r
      · simp only [hres] at h
        injection h with h1 h2
        injection h2 with h2 h3
        injection h3 with h3 h4
        subst h2; subst h3
        refine ⟨execute_task_clock_le backend dfs c t, by simp, ?_⟩
        intro i t' hi
        match i with
        | 0 =>
          simp only [List.get?_cons_zero] at hi
          injection hi with hi
          subst hi
          exact ⟨t, rfl, execute_task_id backend dfs c t,
            fun htok => execute_task_TaskOK htok⟩
        | j + 1 =>
          simp only [List.get?_cons_succ] at hi
          exact ⟨t', hi, rfl, fun htok =>
            htok.mono (execute_task_clock_le backend dfs c t)⟩
      · simp only [hres] at h
        rcases hrec : execTasksLoop backend dfs ids rest
            (execute_task backend dfs c t).clock with ⟨res₀, rest₀, c₀, ws₀⟩
        simp only [hrec] at h
        injection h with h1 h2
        injection h2 with h2 h3
        injection h3 with h3 h4
        subst h2; subst h3
        obtain ⟨hc, hlen, hpt⟩ := ih _ _ _ _ _ hrec
        refine ⟨le_trans (execute_task_clock_le backend dfs c t) hc,
          by simp [hlen], ?_⟩
        intro i t' hi
        match i with
        | 0 =>
          simp only [List.get?_cons_zero] at hi
          injection hi with hi
          subst hi
          exact ⟨t, rfl, execute_task_id backend dfs c t, fun htok =>
            (execute_task_TaskOK htok).mono hc⟩
        | j + 1 =>
          simp only [List.get?_cons_succ] at hi
          obtain ⟨t₀, hg, hid, htr⟩ := hpt j t' hi
          exact ⟨t₀, hg, hid, fun htok =>
            htr (htok.mono (execute_task_clock_le backend dfs c t))⟩
    · -- t is skipped
      rcases hrec : execTasksLoop backend dfs ids rest c with ⟨res₀, rest₀, c₀, ws₀⟩
      simp only [hrec] at h
      injection h with h1 h2
      injection h2 with h2 h3
      injection h3 with h3 h4
      subst h2; subst h3
      obtain ⟨hc, hlen, hpt⟩ := ih _ _ _ _ _ hrec
      refine ⟨hc, by simp [hlen], ?_⟩
      intro i t' hi
      match i with
      | 0 =>
        simp only [List.get?_cons_zero] at hi
        injection hi with hi
        subst hi
        exact ⟨t, rfl, rfl, fun htok => htok.mono hc⟩
      | j + 1 =>
        simp only [List.get?_cons_succ] at hi
        exact hpt j t' hi

end AWB

namespace AWB

lemma inv_initBuilder (key : String) (c : Nat) : Inv (initBuilder key c) := by
  constructor
  · intro t ht
    simp [initBuilder] at ht
  · intro i t hg
    simp [initBuilder] at hg

lemma inv_add {s : AIWorkflowBuilder} (h : Inv s) (ty : TaskType)
    (title description : String) (input : Dict) :
    Inv (add_task s ty title description input).2 := by
  simp only [add_task]
  constructor
  · intro t ht
    rcases List.mem_append.mp ht with hold | hnew
    · refine (h.1 t hold).mono ?_
      show s.clock ≤ s.clock + 2
      omega
    · rw [List.mem_singleton] at hnew
      subst hnew
      exact ⟨by show s.clock + 1 < s.clock + 2; omega,
        fun hst => by simp at hst⟩
  · intro i t hg
    by_cases hi : i < s.tasks.length
    · rw [List.get?_append hi] at hg
      exact h.2 i t hg
    · obtain ⟨hlt, _⟩ := List.get?_eq_some.mp hg
      simp only [List.length_append, List.length_singleton] at hlt
      have hieq : i = s.tasks.length := by omega
      subst hieq
      rw [List.get?_concat_length] at hg
      injection hg with hg
      subst hg
      exact ⟨s.clock, rfl⟩

lemma inv_createWf {s : AIWorkflowBuilder} (h : Inv s) (name : String)
    (ids : List String) : Inv (create_workflow s name ids) :=
  ⟨h.1, h.2⟩

lemma inv_execAt {s : AIWorkflowBuilder} (h : Inv s) (backend : Backend)
    (dfs : DataFS) (i : Nat) : Inv (executeTaskAt backend dfs s i).2 := by
  rcases hg : s.tasks.get? i with _ | t
  · simp only [executeTaskAt, hg]
    exact h
  · simp only [executeTaskAt, hg]
    constructor
    · intro t' ht'
      rcases List.mem_or_eq_of_mem_set ht' with hold | hnew
      · exact (h.1 t' hold).mono (execute_task_clock_le backend dfs s.clock t)
      · subst hnew
        exact execute_task_TaskOK (h.1 t (List.get?_mem hg))
    · intro j t' hg'
      by_cases hij : i = j
      · subst hij
        rw [List.get?_set_eq, hg] at hg'
        simp only [Option.map_some] at hg'
        injection hg' with hg'
        subst hg'
        obtain ⟨c0, hc0⟩ := h.2 i t hg
        exact ⟨c0, by rw [execute_task_id, hc0]⟩
      · rw [List.get?_set_ne _ _ hij] at hg'
        exact h.2 j t' hg'

lemma inv_execWf {s : AIWorkflowBuilder} (h : Inv s) (backend : Backend)
    (dfs : DataFS) (name : String) :
    Inv (execute_workflow backend dfs s name).2 := by
  rcases hlk : alistGet? s.workflows name with _ | ids
  · simp only [execute_workflow, hlk]
    exact h
  · rcases hloop : execTasksLoop backend dfs ids s.tasks s.clock with ⟨res, ts', c', ws⟩
    simp only [execute_workflow, hlk, hloop]
    obtain ⟨hc, hlen, hpt⟩ := execTasksLoop_track backend dfs ids s.tasks s.clock
      res ts' c' ws hloop
    constructor
    · intro t' ht'
      obtain ⟨i, hg'⟩ := List.mem_iff_get?.mp ht'
      obtain ⟨t, hg, hid, htr⟩ := hpt i t' hg'
      exact htr (h.1 t (List.get?_mem hg))
    · intro i t' hg'
      obtain ⟨t, hg, hid, _⟩ := hpt i t' hg'
      obtain ⟨c0, hc0⟩ := h.2 i t hg
      exact ⟨c0, by rw [hid, hc0]⟩

lemma inv_export {s : AIWorkflowBuilder} (h : Inv s) (name format : String) :
    Inv (export_workflow_results s name format).2 := by
  rcases hlk : alistGet? s.workflows name with _ | ids
  · simp only [export_workflow_results, hlk]
    exact h
  · simp only [export_workflow_results, hlk]
    split
    · exact ⟨fun t ht => (h.1 t ht).mono (Nat.le_succ _), h.2⟩
    · exact ⟨fun t ht => (h.1 t ht).mono (Nat.le_succ _), h.2⟩

lemma reach_inv {s : AIWorkflowBuilder} (h : Reach s) : Inv s := by
  induction h with
  | init key c => exact inv_initBuilder key c
  | add s ty title description input _ ih => exact inv_add ih ty title description input
  | createWf s name ids _ ih => exact inv_createWf ih name ids
  | execAt backend dfs s i _ ih => exact inv_execAt ih backend dfs i
  | execWf backend dfs s name _ ih => exact inv_execWf ih backend dfs name
  | exportWf s name format _ ih => exact inv_export ih name format

end AWB

namespace AWB

/-- A task whose dispatch succeeds under the given backend and data filesystem;
this is independent of the clock, since the handlers never read it. -/
def DispatchOk (backend : Backend) (dfs : DataFS) (t : Task) : Prop :=
  ∃ r, dispatch backend dfs t.type t.input_data = .ok r

/-- The result dictionary a successful dispatch of t produces. -/
def dispatchRes (backend : Backend) (dfs : DataFS) (t : Task) : Dict :=
  match dispatch backend dfs t.type t.input_data with
  | .ok r => r
  | .error _ => []

/-- The record left behind by a successful execution of t. -/
def CompletedVer (backend : Backend) (dfs : DataFS) (t t' : Task) : Prop :=
  t'.id = t.id ∧ t'.status = "completed" ∧
  t'.output_data = some (dispatchRes backend dfs t) ∧
  ∃ cc, t'.completed_at = some cc

/-- The record left behind by a failed execution of t with exception e. -/
def FailedVer (e : PyError) (t t' : Task) : Prop :=
  t'.id = t.id ∧ t'.status = "failed" ∧
  t'.output_data = some [("error", .str e.msg)] ∧
  t'.completed_at = t.completed_at

lemma execTasksLoop_none (backend : Backend) (dfs : DataFS) (ids : List String) :
    ∀ (ts : List Task) (c : Nat), (∀ t ∈ ts, ids.contains t.id = false) →
      execTasksLoop backend dfs ids ts c = (.ok [], ts, c, []) := by
  intro ts
  induction ts with
  | nil => intro c _; rfl
  | cons t rest ih =>
    intro c hall
    have hm : t.id ∉ ids := by simpa using hall t (List.mem_cons_self t rest)
    have hrest := ih c (fun t' ht' => hall t' (List.mem_cons_of_mem t ht'))
    simp [execTasksLoop, hm, hrest]

lemma execTasksLoop_congr (backend : Backend) (dfs : DataFS)
    {ids ids' : List String} (hmem : ∀ x, ids.contains x = ids'.contains x) :
    ∀ (ts : List Task) (c : Nat),
      execTasksLoop backend dfs ids ts c = execTasksLoop backend dfs ids' ts c := by
  intro ts
  induction ts with
  | nil => intro c; rfl
  | cons t rest ih =>
    intro c
    have hcd : (t.id ∈ ids) ↔ (t.id ∈ ids') := by simpa using hmem t.id
    by_cases hin : t.id ∈ ids'
    · have hin2 : t.id ∈ ids := hcd.mpr hin
      simp [execTasksLoop, hin, hin2, ih]
    · have hin2 : t.id ∉ ids := fun hh => hin (hcd.mp hh)
      simp [execTasksLoop, hin, hin2, ih]

lemma execTasksLoop_ok_length (backend : Backend) (dfs : DataFS)
    (ids : List String) :
    ∀ (ts : List Task) (c : Nat) rs ts' c' ws,
      execTasksLoop backend dfs ids ts c = (.ok rs, ts', c', ws) →
      rs.length = (ts.filter (fun t => ids.contains t.id)).length := by
  intro ts
  induction ts with
  | nil =>
    intro c rs ts' c' ws h
    simp only [execTasksLoop] at h
    injection h with h1 h2
    injection h1 with h1
    subst h1
    simp
  | cons t rest ih =>
    intro c rs ts' c' ws h
    simp only [execTasksLoop] at h
    split at h
    case isTrue hm =>
      rcases hres : (execute_task backend dfs c t).result with e | r
      · simp only [hres] at h
        injection h with h1 h2
        injection h1
      · simp only [hres] at h
        rcases hrec : execTasksLoop backend dfs ids rest
            (execute_task backend dfs c t).clock with ⟨res₀, rest₀, c₀, ws₀⟩
        simp only [hrec] at h
        injection h with h1 h2
        cases res₀ with
        | error e => simp [Except.map] at h1
        | ok l =>
          simp only [Except.map] at h1
          injection h1 with h1
          subst h1
          rw [List.filter_cons, if_pos hm]
          simp [ih _ _ _ _ _ hrec]
    case isFalse hm =>
      rcases hrec : execTasksLoop backend dfs ids rest c with ⟨res₀, rest₀, c₀, ws₀⟩
      simp only [hrec] at h
      injection h with h1 h2
      subst h1
      rw [List.filter_cons, if_neg hm]
      exact ih _ _ _ _ _ hrec

end AWB

namespace AWB

lemma filter_id_cons_pos (ids : List String) (x : Task) (xs : List Task)
    (hx : ids.contains x.id = true) :
    (x :: xs).filter (fun t => ids.contains t.id)
      = x :: xs.filter (fun t => ids.contains t.id) :=
  List.filter_cons_of_pos hx

lemma filter_id_cons_neg (ids : List String) (x : Task) (xs : List Task)
    (hx : ¬ ids.contains x.id = true) :
    (x :: xs).filter (fun t => ids.contains t.id)
      = xs.filter (fun t => ids.contains t.id) :=
  List.filter_cons_of_neg hx

lemma execTasksLoop_allOk (backend : Backend) (dfs : DataFS) (ids : List String) :
    ∀ (ts : List Task) (c : Nat),
      (∀ t ∈ ts.filter (fun t => ids.contains t.id), DispatchOk backend dfs t) →
      ∃ ts' c' ws,
        execTasksLoop backend dfs ids ts c =
          (.ok ((ts.filter (fun t => ids.contains t.id)).map
            (dispatchRes backend dfs)), ts', c', ws) ∧
        List.Forall₂ (CompletedVer backend dfs)
          (ts.filter (fun t => ids.contains t.id))
          (ts'.filter (fun t => ids.contains t.id)) := by
  intro ts
  induction ts with
  | nil => intro c _; exact ⟨[], c, [], rfl, List.Forall₂.nil⟩
  | cons t rest ih =>
    intro c hall
    by_cases hm : t.id ∈ ids
    · have hmc : ids.contains t.id = true := by simpa using hm
      have hfc := filter_id_cons_pos ids t rest hmc
      obtain ⟨r, hr⟩ := hall t (by rw [hfc]; exact List.mem_cons_self _ _)
      obtain ⟨ts'', c'', ws'', hloop, hfa⟩ := ih (c + 1)
        (fun t' ht' => hall t' (by rw [hfc]; exact List.mem_cons_of_mem _ ht'))
      have hex := @execute_task_ok backend dfs c t r hr
      have hdr : dispatchRes backend dfs t = r := by
        unfold dispatchRes; rw [hr]
      have hmc2 : ids.contains
          ({ t with status := "completed", output_data := some r,
                    completed_at := some c } : Task).id = true := hmc
      refine ⟨{ t with status := "completed", output_data := some r,
                       completed_at := some c } :: ts'', c'',
        ("results/" ++ t.id ++ "_" ++ t.type.value ++ ".json",
          Task.asdict { t with status := "completed", output_data := some r,
                               completed_at := some c }) :: ws'', ?_, ?_⟩
      · rw [hfc]
        simp only [execTasksLoop]
        rw [if_pos hmc]
        simp only [hex, hloop, Except.map, Option.toList, List.map_cons, hdr,
          List.singleton_append]
      · rw [hfc, filter_id_cons_pos ids _ ts'' hmc2]
        exact List.Forall₂.cons ⟨rfl, rfl, by rw [hdr], ⟨c, rfl⟩⟩ hfa
    · have hmc : ¬ ids.contains t.id = true := by simpa using hm
      have hfc := filter_id_cons_neg ids t rest hmc
      obtain ⟨ts'', c'', ws'', hloop, hfa⟩ := ih c
        (fun t' ht' => hall t' (by rw [hfc]; exact ht'))
      refine ⟨t :: ts'', c'', ws'', ?_, ?_⟩
      · rw [hfc]
        simp only [execTasksLoop]
        rw [if_neg hmc]
        simp only [hloop]
      · rw [hfc, filter_id_cons_neg ids t ts'' hmc]
        exact hfa

lemma execTasksLoop_fail (backend : Backend) (dfs : DataFS) (ids : List String)
    (e : PyError) :
    ∀ (ts pre : List Task) (tb : Task) (post : List Task) (c : Nat),
      ts.filter (fun t => ids.contains t.id) = pre ++ tb :: post →
      (∀ t ∈ pre, DispatchOk backend dfs t) →
      dispatch backend dfs tb.type tb.input_data = .error e →
      ∃ ts' c' ws pre' tb',
        execTasksLoop backend dfs ids ts c = (.error e, ts', c', ws) ∧
        ts'.filter (fun t => ids.contains t.id) = pre' ++ tb' :: post ∧
        List.Forall₂ (CompletedVer backend dfs) pre pre' ∧
        FailedVer e tb tb' := by
  intro ts
  induction ts with
  | nil =>
    intro pre tb post c hsplit _ _
    rw [List.filter_nil] at hsplit
    cases pre <;> simp at hsplit
  | cons t rest ih =>
    intro pre tb post c hsplit hpre hde
    by_cases hm : t.id ∈ ids
    · have hmc : ids.contains t.id = true := by simpa using hm
      rw [filter_id_cons_pos ids t rest hmc] at hsplit
      cases pre with
      | nil =>
        simp only [List.nil_append] at hsplit
        injection hsplit with h1 h2
        subst h1
        have hex := @execute_task_err backend dfs c t e hde
        have hmc2 : ids.contains
            ({ t with status := "failed",
                      output_data := some [("error", .str e.msg)] }
              : Task).id = true := hmc
        refine ⟨{ t with status := "failed",
                         output_data := some [("error", .str e.msg)] } :: rest,
          c, [], [],
          { t with status := "failed",
                   output_data := some [("error", .str e.msg)] }, ?_, ?_,
          List.Forall₂.nil, ⟨rfl, rfl, rfl, rfl⟩⟩
        · simp only [execTasksLoop]
          rw [if_pos hmc]
          simp only [hex, Option.toList]
        · rw [filter_id_cons_pos ids _ rest hmc2, h2, List.nil_append]
      | cons p pre₂ =>
        simp only [List.cons_append] at hsplit
        injection hsplit with h1 h2
        subst h1
        obtain ⟨r, hr⟩ := hpre t (List.mem_cons_self _ _)
        have hex := @execute_task_ok backend dfs c t r hr
        have hdr : dispatchRes backend dfs t = r := by
          unfold dispatchRes; rw [hr]
        obtain ⟨ts'', c'', ws'', pre₂', tb', hloop, hfil, hfa, hfv⟩ :=
          ih pre₂ tb post (c + 1) h2
            (fun x hx => hpre x (List.mem_cons_of_mem _ hx)) hde
        have hmc2 : ids.contains
            ({ t with status := "completed", output_data := some r,
                      completed_at := some c } : Task).id = true := hmc
        refine ⟨{ t with status := "completed", output_data := some r,
                         completed_at := some c } :: ts'', c'',
          ("results/" ++ t.id ++ "_" ++ t.type.value ++ ".json",
            Task.asdict { t with status := "completed", output_data := some r,
                                 completed_at := some c }) :: ws'',
          { t with status := "completed", output_data := some r,
                   completed_at := some c } :: pre₂', tb', ?_, ?_, ?_, hfv⟩
        · simp only [execTasksLoop]
          rw [if_pos hmc]
          simp only [hex, hloop, Except.map, Option.toList, List.singleton_append]
        · rw [filter_id_cons_pos ids _ ts'' hmc2, hfil, List.cons_append]
        · exact List.Forall₂.cons ⟨rfl, rfl, by rw [hdr], ⟨c, rfl⟩⟩ hfa
    · have hmc : ¬ ids.contains t.id = true := by simpa using hm
      rw [filter_id_cons_neg ids t rest hmc] at hsplit
      obtain ⟨ts'', c'', ws'', pre', tb', hloop, hfil, hfa, hfv⟩ :=
        ih pre tb post c hsplit hpre hde
      refine ⟨t :: ts'', c'', ws'', pre', tb', ?_, ?_, hfa, hfv⟩
      · simp only [execTasksLoop]
        rw [if_neg hmc]
        simp only [hloop]
      · rw [filter_id_cons_neg ids t ts'' hmc, hfil]

end AWB

namespace AWB

/-- A backend that always answers with the fixed text ok. -/
def okBackend : Backend := fun _ => .ok "ok"

/-- A data filesystem with no files. -/
def emptyDFS : DataFS := fun _ => none

lemma find?_key_cons_pos {α : Type} (k : String) (q : String × α)
    (l : List (String × α)) (hq : (q.1 == k) = true) :
    (q :: l).find? (fun p => p.1 == k) = some q :=
  List.find?_cons_of_pos _ hq

lemma find?_key_cons_neg {α : Type} (k : String) (q : String × α)
    (l : List (String × α)) (hq : ¬ (q.1 == k) = true) :
    (q :: l).find? (fun p => p.1 == k) = l.find? (fun p => p.1 == k) :=
  List.find?_cons_of_neg _ hq

lemma find?_map_set {α : Type} (k : String) (v : α) :
    ∀ l : List (String × α), l.any (fun p => p.1 == k) = true →
      (l.map (fun p => if p.1 == k then (k, v) else p)).find?
        (fun p => p.1 == k) = some (k, v) := by
  intro l
  induction l with
  | nil => intro h; simp at h
  | cons p rest ih =>
    intro h
    by_cases hp : (p.1 == k) = true
    · simp only [List.map_cons, if_pos hp]
      exact find?_key_cons_pos k (k, v) _ (by simp)
    · have h' : rest.any (fun p => p.1 == k) = true := by
        simp only [List.any_cons, hp] at h
        simpa using h
      simp only [List.map_cons, if_neg hp]
      rw [find?_key_cons_neg k p _ hp]
      exact ih h'

lemma find?_append_new {α : Type} (k : String) (v : α) :
    ∀ l : List (String × α), l.any (fun p => p.1 == k) = false →
      (l ++ [(k, v)]).find? (fun p => p.1 == k) = some (k, v) := by
  intro l
  induction l with
  | nil =>
    intro _
    exact find?_key_cons_pos k (k, v) _ (by simp)
  | cons p rest ih =>
    intro h
    simp only [List.any_cons, Bool.or_eq_false_iff] at h
    have hp : ¬ ((p.1 == k) = true) := by
      intro hc
      rw [h.1] at hc
      exact Bool.false_ne_true hc
    rw [List.cons_append, find?_key_cons_neg k p _ hp]
    exact ih h.2

lemma alistGet?_alistSet_self {α : Type} (l : List (String × α)) (k : String)
    (v : α) : alistGet? (alistSet l k v) k = some v := by
  unfold alistGet? alistSet
  by_cases hany : l.any (fun p => p.1 == k) = true
  · rw [if_pos hany, find?_map_set k v l hany]
    rfl
  · rw [Bool.not_eq_true] at hany
    rw [if_neg (by rw [hany]; exact Bool.false_ne_true), find?_append_new k v l hany]
    rfl

end AWB

namespace AWB

/-- C7: for all sequences of valid add_task calls (and any other operations) on
one Orchestrator instance, the ids of the tasks ever added are pairwise
distinct: the id embeds the strictly growing task-list index, so even two
tasks minted within the same HHMMSS clock tick cannot collide. -/
theorem c7_task_ids_unique (s : AIWorkflowBuilder) (h : Reach s) :
    (s.tasks.map Task.id).Nodup := by
  obtain ⟨-, hids⟩ := reach_inv h
  rw [List.nodup_iff_get?_ne_get?]
  intro i j hij hjlen heq
  rw [List.length_map] at hjlen
  have hilen : i < s.tasks.length := lt_trans hij hjlen
  have hi := List.get?_eq_get hilen
  have hj := List.get?_eq_get hjlen
  rw [List.get?_map, List.get?_map, hi, hj] at heq
  simp only [Option.map_some'] at heq
  injection heq with heq
  obtain ⟨ci, hci⟩ := hids i _ hi
  obtain ⟨cj, hcj⟩ := hids j _ hj
  rw [hci, hcj] at heq
  exact absurd (taskIdStr_inj heq) (Nat.ne_of_lt hij)

/-- Witness for c7_task_ids_unique at a concrete reachable two-task state. -/
theorem c7_witness :
    (((add_task (add_task (initBuilder "key" 0) TaskType.email_generation "A"
      "" []).2 TaskType.translation "B" "" []).2).tasks.map Task.id).Nodup :=
  c7_task_ids_unique _
    (Reach.add _ TaskType.translation "B" "" []
      (Reach.add _ TaskType.email_generation "A" "" []
        (Reach.init "key" 0)))

/-- C5: in every reachable Orchestrator state, a task with status completed
carries a present, non-empty output_data and a set completed_at; and every
successful execute_task call leaves the executed task completed with the
returned non-empty result and a completion stamp no earlier than its creation
stamp. -/
theorem c5_completed_invariant (s : AIWorkflowBuilder) (h : Reach s) :
    (∀ t ∈ s.tasks, t.status = "completed" →
      (∃ d, t.output_data = some d ∧ d ≠ []) ∧
      ∃ cc, t.completed_at = some cc ∧ t.created_at ≤ cc) ∧
    (∀ (backend : Backend) (dfs : DataFS) (i : Nat) (r : Dict)
        (s' : AIWorkflowBuilder),
      executeTaskAt backend dfs s i = (.ok r, s') →
      ∃ t', s'.tasks.get? i = some t' ∧ t'.status = "completed" ∧
        t'.output_data = some r ∧ r ≠ [] ∧
        ∃ cc, t'.completed_at = some cc ∧ t'.created_at ≤ cc) := by
  have hinv := reach_inv h
  constructor
  · intro t ht hst
    exact (hinv.1 t ht).2 hst
  · intro backend dfs i r s' hexec
    rcases hg : s.tasks.get? i with _ | t
    · simp only [executeTaskAt, hg] at hexec
      injection hexec with h1 h2
      injection h1
    · simp only [executeTaskAt, hg] at hexec
      rcases hd : dispatch backend dfs t.type t.input_data with e | r₀
      · simp only [@execute_task_err backend dfs s.clock t e hd] at hexec
        injection hexec with h1 h2
        injection h1
      · simp only [@execute_task_ok backend dfs s.clock t r₀ hd] at hexec
        injection hexec with h1 h2
        injection h1 with h1
        subst h1
        subst h2
        refine ⟨{ t with status := "completed", output_data := some r₀,
                         completed_at := some s.clock }, ?_, rfl, rfl,
          dispatch_ok_ne_nil hd, s.clock, rfl, ?_⟩
        · have hg2 : s.tasks[i]? = some t := by
            rw [← List.get?_eq_getElem?]
            exact hg
          simp [List.getElem?_set_self', hg2, Function.const]
        · show t.created_at ≤ s.clock
          exact Nat.le_of_lt (hinv.1 t (List.get?_mem hg)).1

/-- The state after adding one email task and executing it successfully. -/
def c5state : AIWorkflowBuilder :=
  (executeTaskAt okBackend emptyDFS
    (add_task (initBuilder "key" 0) TaskType.email_generation "A" "" []).2
    0).2

/-- Witness for c5_completed_invariant at a concrete reachable state holding a
completed task. -/
theorem c5_witness :
    (∀ t ∈ c5state.tasks, t.status = "completed" →
      (∃ d, t.output_data = some d ∧ d ≠ []) ∧
      ∃ cc, t.completed_at = some cc ∧ t.created_at ≤ cc) ∧
    (∀ (backend : Backend) (dfs : DataFS) (i : Nat) (r : Dict)
        (s' : AIWorkflowBuilder),
      executeTaskAt backend dfs c5state i = (.ok r, s') →
      ∃ t', s'.tasks.get? i = some t' ∧ t'.status = "completed" ∧
        t'.output_data = some r ∧ r ≠ [] ∧
        ∃ cc, t'.completed_at = some cc ∧ t'.created_at ≤ cc) :=
  c5_completed_invariant c5state
    (Reach.execAt okBackend emptyDFS _ 0
      (Reach.add _ TaskType.email_generation "A" "" []
        (Reach.init "key" 0)))

/-- C8: executing a registered workflow whose id list matches no existing task
returns an empty result list without raising and leaves the state unchanged:
dangling ids are silently skipped. -/
theorem c8_dangling_ids_empty (backend : Backend) (dfs : DataFS)
    (s : AIWorkflowBuilder) (name : String) (ids : List String)
    (hlk : alistGet? s.workflows name = some ids)
    (hnone : ∀ t ∈ s.tasks, ids.contains t.id = false) :
    execute_workflow backend dfs s name = (.ok [], s) := by
  simp only [execute_workflow, hlk,
    execTasksLoop_none backend dfs ids s.tasks s.clock hnone]
  rfl

/-- The scenario of the specification: create_workflow w1 [taskX] where taskX
does not exist. -/
def c8state : AIWorkflowBuilder :=
  create_workflow (add_task (initBuilder "key" 0) TaskType.email_generation
    "A" "" []).2 "w1" ["taskX"]

/-- Witness for c8_dangling_ids_empty at the concrete dangling-id scenario. -/
theorem c8_witness :
    execute_workflow okBackend emptyDFS c8state "w1" = (.ok [], c8state) :=
  c8_dangling_ids_empty okBackend emptyDFS c8state "w1" ["taskX"] rfl
    (by decide)

/-- C10: execute_workflow selects the tasks to run by membership of their id in
the workflow id list, not by iterating the list entries: two workflows whose id
lists have the same members behave identically from the same state, and a
successful run yields exactly one result per matching task of the task list,
regardless of duplicate entries. -/
theorem c10_membership_selection (backend : Backend) (dfs : DataFS)
    (s : AIWorkflowBuilder) (name name' : String) (ids ids' : List String)
    (h1 : alistGet? s.workflows name = some ids)
    (h2 : alistGet? s.workflows name' = some ids')
    (hmem : ∀ x, ids.contains x = ids'.contains x) :
    execute_workflow backend dfs s name = execute_workflow backend dfs s name' ∧
    ∀ rs s', execute_workflow backend dfs s name = (.ok rs, s') →
      rs.length = (s.tasks.filter (fun t => ids.contains t.id)).length := by
  constructor
  · simp only [execute_workflow, h1, h2,
      execTasksLoop_congr backend dfs hmem s.tasks s.clock]
  · intro rs s' hex
    simp only [execute_workflow, h1] at hex
    rcases hloop : execTasksLoop backend dfs ids s.tasks s.clock with
      ⟨res, ts', c', ws⟩
    simp only [hloop] at hex
    injection hex with hex1 hex2
    subst hex1
    exact execTasksLoop_ok_length backend dfs ids s.tasks s.clock rs ts' c' ws
      hloop

/-- One email task, one workflow listing its id twice, one listing it once. -/
def c10state : AIWorkflowBuilder :=
  create_workflow (create_workflow (add_task (initBuilder "key" 0)
    TaskType.email_generation "A" "" [("purpose", JValue.str "p")]).2
    "w" ["task_0_000000", "task_0_000000"]) "w2" ["task_0_000000"]

/-- Witness for c10_membership_selection: the duplicated id list behaves like
the deduplicated one and produces a single result. -/
theorem c10_witness :
    execute_workflow okBackend emptyDFS c10state "w"
      = execute_workflow okBackend emptyDFS c10state "w2" ∧
    ∀ rs s', execute_workflow okBackend emptyDFS c10state "w" = (.ok rs, s') →
      rs.length = (c10state.tasks.filter (fun t =>
        (["task_0_000000", "task_0_000000"] : List String).contains
          t.id)).length :=
  c10_membership_selection okBackend emptyDFS c10state "w" "w2"
    ["task_0_000000", "task_0_000000"] ["task_0_000000"] rfl rfl
    (by intro x; cases hb : (x == "task_0_000000") <;> simp [hb])

end AWB

namespace AWB

/-- C4 (amended): when its dispatch raises, execute_task records status failed
and output_data {error: str(e)} on the task before re-raising the same
exception, writes no result file, and leaves completed_at unchanged (so None
exactly when the task had never completed before). -/
theorem c4_failure_recording (backend : Backend) (dfs : DataFS) (c : Nat)
    (t : Task) (e : PyError)
    (hd : dispatch backend dfs t.type t.input_data = .error e) :
    (execute_task backend dfs c t).result = .error e ∧
    (execute_task backend dfs c t).task.status = "failed" ∧
    (execute_task backend dfs c t).task.output_data
      = some [("error", .str e.msg)] ∧
    (execute_task backend dfs c t).task.completed_at = t.completed_at ∧
    (execute_task backend dfs c t).savedFile = none := by
  rw [@execute_task_err backend dfs c t e hd]
  exact ⟨rfl, rfl, rfl, rfl, rfl⟩

/-- A backend whose exception carries an empty message. -/
def failBackend : Backend := fun _ => .error (.backendError "")

/-- One email task executed successfully once (so completed_at is set). -/
def c4state : AIWorkflowBuilder :=
  (executeTaskAt okBackend emptyDFS
    (add_task (initBuilder "key" 0) TaskType.email_generation "A" "" []).2
    0).2

/-- Counterexample to C4 as stated: re-executing a previously completed task
against a failing backend leaves status failed but completed_at still set to
the earlier stamp (not None), and the recorded error message is the empty
string because the exception message is empty. -/
theorem c4_counterexample :
    (executeTaskAt failBackend emptyDFS c4state 0).2.tasks.map
      (fun t => (t.status, t.completed_at, t.output_data))
      = [("failed", some 2, some [("error", JValue.str "")])] := rfl

/-- A fresh pending email task used by the c4 witness. -/
def c4task : Task :=
  { id := "t0", type := TaskType.email_generation, title := "A",
    description := "", input_data := [], output_data := none,
    status := "pending", created_at := 0, completed_at := none }

/-- Witness for c4_failure_recording on a fresh pending task. -/
theorem c4_witness :
    (execute_task failBackend emptyDFS 5 c4task).result
      = .error (.backendError "") ∧
    (execute_task failBackend emptyDFS 5 c4task).task.status = "failed" ∧
    (execute_task failBackend emptyDFS 5 c4task).task.output_data
      = some [("error", .str (PyError.backendError "").msg)] ∧
    (execute_task failBackend emptyDFS 5 c4task).task.completed_at
      = c4task.completed_at ∧
    (execute_task failBackend emptyDFS 5 c4task).savedFile = none :=
  c4_failure_recording failBackend emptyDFS 5 c4task (.backendError "") rfl

/-- C3 (amended): for a registered workflow and any format value other than
json, export_workflow_results writes no file but raises UnboundLocalError
(the return statement reads the filepath local that only the json branch
assigns) instead of returning normally. -/
theorem c3_non_json_raises (s : AIWorkflowBuilder) (name fmt : String)
    (ids : List String) (hlk : alistGet? s.workflows name = some ids)
    (hfmt : fmt ≠ "json") :
    (export_workflow_results s name fmt).1
      = .error (.unboundLocalError "cannot access local variable filepath") ∧
    (export_workflow_results s name fmt).2.files = s.files := by
  have hbeq : ¬ ((fmt == "json") = true) := by simpa using hfmt
  simp only [export_workflow_results, hlk]
  rw [if_neg hbeq]
  exact ⟨rfl, rfl⟩

/-- A builder with one registered (empty) workflow. -/
def c3state : AIWorkflowBuilder :=
  create_workflow (initBuilder "key" 0) "w" []

/-- Counterexample to C3 as stated: exporting with format csv raises
UnboundLocalError rather than returning normally (and writes no file). -/
theorem c3_counterexample :
    (export_workflow_results c3state "w" "csv").1
      = .error (.unboundLocalError "cannot access local variable filepath") ∧
    (export_workflow_results c3state "w" "csv").2.files = [] :=
  ⟨rfl, rfl⟩

/-- Witness for c3_non_json_raises with format xml. -/
theorem c3_witness :
    (export_workflow_results c3state "w" "xml").1
      = .error (.unboundLocalError "cannot access local variable filepath") ∧
    (export_workflow_results c3state "w" "xml").2.files = c3state.files :=
  c3_non_json_raises c3state "w" "xml" [] rfl (by decide)

/-- C2 (amended): exporting a registered workflow as json returns the path
results/<name>_results.json and stores there the object whose tasks array
holds the full records of the tasks whose ids occur in the workflow id list,
in the Orchestrator task list's insertion order (the workflow list's own order
only when it agrees with insertion order); each exported record is exactly the
record list_tasks reports for that task. -/
theorem c2_export_roundtrip (s : AIWorkflowBuilder) (name : String)
    (ids : List String) (hlk : alistGet? s.workflows name = some ids) :
    (export_workflow_results s name "json").1
      = .ok ("results/" ++ name ++ "_results.json") ∧
    alistGet? (export_workflow_results s name "json").2.files
        ("results/" ++ name ++ "_results.json")
      = some (.obj [("workflow_name", .str name),
          ("execution_date", .nat s.clock),
          ("tasks", .arr ((s.tasks.filter (fun t => ids.contains t.id)).map
            Task.asdict))]) ∧
    ∀ t ∈ s.tasks.filter (fun t => ids.contains t.id),
      Task.asdict t ∈ list_tasks s := by
  refine ⟨?_, ?_, ?_⟩
  · simp only [export_workflow_results, hlk]
    rw [if_pos (show ("json" == "json") = true from rfl)]
  · simp only [export_workflow_results, hlk]
    rw [if_pos (show ("json" == "json") = true from rfl)]
    exact alistGet?_alistSet_self s.files _ _
  · intro t ht
    exact List.mem_map_of_mem Task.asdict (List.mem_of_mem_filter ht)

/-- Two pending email tasks and a workflow listing their ids in reverse
insertion order. -/
def c2state : AIWorkflowBuilder :=
  create_workflow (add_task (add_task (initBuilder "key" 0)
    TaskType.email_generation "A" "" []).2
    TaskType.email_generation "B" "" []).2
    "w" ["task_1_000002", "task_0_000000"]

/-- Counterexample to C2 as stated: the workflow id list is [task_1, task_0],
yet the exported tasks array lists task_0 first, because the export filters
the task list in insertion order instead of following the id list. -/
theorem c2_counterexample :
    alistGet? c2state.workflows "w" = some ["task_1_000002", "task_0_000000"] ∧
    alistGet? (export_workflow_results c2state "w" "json").2.files
        "results/w_results.json"
      = some (.obj [("workflow_name", .str "w"), ("execution_date", .nat 4),
          ("tasks", .arr
            [Task.asdict
               { id := "task_0_000000", type := TaskType.email_generation,
                 title := "A", description := "", input_data := [],
                 output_data := none, status := "pending", created_at := 1,
                 completed_at := none },
             Task.asdict
               { id := "task_1_000002", type := TaskType.email_generation,
                 title := "B", description := "", input_data := [],
                 output_data := none, status := "pending", created_at := 3,
                 completed_at := none }])]) ∧
    ("task_0_000000" : String) ≠ "task_1_000002" :=
  ⟨rfl, rfl, by decide⟩

/-- Witness for c2_export_roundtrip at the concrete two-task state. -/
theorem c2_witness :
    (export_workflow_results c2state "w" "json").1
      = .ok ("results/" ++ "w" ++ "_results.json") ∧
    alistGet? (export_workflow_results c2state "w" "json").2.files
        ("results/" ++ "w" ++ "_results.json")
      = some (.obj [("workflow_name", .str "w"),
          ("execution_date", .nat c2state.clock),
          ("tasks", .arr ((c2state.tasks.filter (fun t =>
            (["task_1_000002", "task_0_000000"] : List String).contains
              t.id)).map Task.asdict))]) ∧
    ∀ t ∈ c2state.tasks.filter (fun t =>
        (["task_1_000002", "task_0_000000"] : List String).contains t.id),
      Task.asdict t ∈ list_tasks c2state :=
  c2_export_roundtrip c2state "w" ["task_1_000002", "task_0_000000"] rfl

end AWB

namespace AWB

/-- C1 (amended): execute_workflow executes exactly the tasks of the task list
whose ids occur in the workflow id list, strictly sequentially in the task
list's insertion order (which coincides with the workflow list's own order
only when that list follows insertion order); when the execution of one
selected task raises, the error propagates to the caller, the earlier
selected tasks are left completed, the failing task is left failed, and all
later selected tasks are left untouched, never attempted. -/
theorem c1_insertion_order_halt (backend : Backend) (dfs : DataFS)
    (s : AIWorkflowBuilder) (name : String) (ids : List String)
    (pre rest : List Task)
    (hlk : alistGet? s.workflows name = some ids)
    (hsplit : s.tasks.filter (fun t => ids.contains t.id) = pre ++ rest)
    (hpre : ∀ t ∈ pre, DispatchOk backend dfs t) :
    (rest = [] →
      (execute_workflow backend dfs s name).1
        = .ok (pre.map (dispatchRes backend dfs))) ∧
    (∀ tb post e, rest = tb :: post →
      dispatch backend dfs tb.type tb.input_data = .error e →
      (execute_workflow backend dfs s name).1 = .error e ∧
      ∃ pre' tb',
        (execute_workflow backend dfs s name).2.tasks.filter
          (fun t => ids.contains t.id) = pre' ++ tb' :: post ∧
        List.Forall₂ (CompletedVer backend dfs) pre pre' ∧
        FailedVer e tb tb') := by
  constructor
  · intro hrest
    subst hrest
    rw [List.append_nil] at hsplit
    obtain ⟨ts', c', ws, hloop, -⟩ :=
      execTasksLoop_allOk backend dfs ids s.tasks s.clock
        (by rw [hsplit]; exact hpre)
    rw [hsplit] at hloop
    simp only [execute_workflow, hlk, hloop]
  · intro tb post e hrest hde
    subst hrest
    obtain ⟨ts', c', ws, pre', tb', hloop, hfil, hfa, hfv⟩ :=
      execTasksLoop_fail backend dfs ids e s.tasks pre tb post s.clock hsplit
        hpre hde
    refine ⟨?_, pre', tb', ?_, hfa, hfv⟩
    · simp only [execute_workflow, hlk, hloop]
    · simp only [execute_workflow, hlk, hloop]
      exact hfil

/-- Two email tasks added in order A then B, with a workflow that lists their
ids in the opposite order. -/
def c1revstate : AIWorkflowBuilder :=
  create_workflow (add_task (add_task (initBuilder "key" 0)
    TaskType.email_generation "A" "" [("purpose", JValue.str "a")]).2
    TaskType.email_generation "B" "" [("purpose", JValue.str "b")]).2
    "w" ["task_1_000002", "task_0_000000"]

/-- Counterexample to C1 as stated: the workflow id list is [task_1, task_0],
but the first result returned is task_0's (its purpose field is a, the first
task added), because execution follows the task list's insertion order rather
than the order of the workflow id list. -/
theorem c1_counterexample :
    alistGet? c1revstate.workflows "w"
      = some ["task_1_000002", "task_0_000000"] ∧
    (execute_workflow okBackend emptyDFS c1revstate "w").1
      = .ok [[("email_content", JValue.str "ok"), ("purpose", JValue.str "a"),
              ("tone", JValue.str "professional"),
              ("language", JValue.str "arabic")],
             [("email_content", JValue.str "ok"), ("purpose", JValue.str "b"),
              ("tone", JValue.str "professional"),
              ("language", JValue.str "arabic")]] ∧
    ("a" : String) ≠ "b" :=
  ⟨rfl, rfl, by decide⟩

/-- The first, second and third email tasks of the c1 witness state. -/
def c1taskA : Task :=
  { id := "task_0_000000", type := TaskType.email_generation, title := "A",
    description := "", input_data := [("purpose", JValue.str "a")],
    output_data := none, status := "pending", created_at := 1,
    completed_at := none }

def c1taskB : Task :=
  { id := "task_1_000002", type := TaskType.email_generation, title := "B",
    description := "", input_data := [("purpose", JValue.str "b")],
    output_data := none, status := "pending", created_at := 3,
    completed_at := none }

def c1taskC : Task :=
  { id := "task_2_000004", type := TaskType.email_generation, title := "C",
    description := "", input_data := [("purpose", JValue.str "c")],
    output_data := none, status := "pending", created_at := 5,
    completed_at := none }

/-- A backend that fails exactly on the prompt generated for task B. -/
def c1backend : Backend := fun req =>
  if req.userMsg ==
      "Write an email in arabic with tone professional purpose b recipient "
  then .error (.backendError "boom") else .ok "ok"

/-- Three email tasks A, B, C and a workflow listing them in insertion order. -/
def c1state : AIWorkflowBuilder :=
  create_workflow (add_task (add_task (add_task (initBuilder "key" 0)
    TaskType.email_generation "A" "" [("purpose", JValue.str "a")]).2
    TaskType.email_generation "B" "" [("purpose", JValue.str "b")]).2
    TaskType.email_generation "C" "" [("purpose", JValue.str "c")]).2
    "w" ["task_0_000000", "task_1_000002", "task_2_000004"]

/-- Witness for c1_insertion_order_halt: the workflow [A, B, C] where B fails,
instantiated with pre = [A] and rest = [B, C]. -/
theorem c1_witness :
    (([c1taskB, c1taskC] : List Task) = [] →
      (execute_workflow c1backend emptyDFS c1state "w").1
        = .ok ([c1taskA].map (dispatchRes c1backend emptyDFS))) ∧
    (∀ tb post e, ([c1taskB, c1taskC] : List Task) = tb :: post →
      dispatch c1backend emptyDFS tb.type tb.input_data = .error e →
      (execute_workflow c1backend emptyDFS c1state "w").1 = .error e ∧
      ∃ pre' tb',
        (execute_workflow c1backend emptyDFS c1state "w").2.tasks.filter
          (fun t => (["task_0_000000", "task_1_000002", "task_2_000004"] :
            List String).contains t.id) = pre' ++ tb' :: post ∧
        List.Forall₂ (CompletedVer c1backend emptyDFS) [c1taskA] pre' ∧
        FailedVer e tb tb') :=
  c1_insertion_order_halt c1backend emptyDFS c1state "w"
    ["task_0_000000", "task_1_000002", "task_2_000004"]
    [c1taskA] [c1taskB, c1taskC] rfl rfl
    (by
      intro t ht
      rw [List.mem_singleton] at ht
      subst ht
      exact ⟨_, rfl⟩)

end AWB

namespace AWB

lemma summarize_dispatch (backend : Backend) (dfs : DataFS) (t : Task)
    (txt : String) (ml : Nat) (resp : String)
    (hty : t.type = .text_summarization)
    (htext : dictGet t.input_data "text" (.str "") = .str txt)
    (hml : dictGet t.input_data "max_length" (.nat 150) = .nat ml)
    (hback : ∀ req, backend req = .ok resp) :
    dispatch backend dfs t.type t.input_data =
      (if (txt != "") = true then
        (if wordCount txt = 0 then .error .zeroDivisionError
         else .ok [("original_length", .nat (wordCount txt)),
                   ("summary", .str resp),
                   ("summary_length", .nat (wordCount resp)),
                   ("compression_ratio",
                     .rat ((wordCount resp : Rat) / (wordCount txt : Rat)))])
       else .ok [("original_length", .nat (wordCount txt)),
                 ("summary", .str resp),
                 ("summary_length", .nat (wordCount resp)),
                 ("compression_ratio", .nat 0)]) := by
  rw [hty]
  simp only [dispatch, summarize_text, htext, hml, pyMulTwo, hback,
    pySplitLen, JValue.pyTruthy]

/-- C6 (amended): for a summarization task whose text field holds the string
txt and whose max_length field holds a number, under a backend answering resp:
an empty text yields compression_ratio 0 (the int), a text with at least one
whitespace-delimited word yields compression_ratio summary_length divided by
original_length, and a non-empty text with zero words raises
ZeroDivisionError, because the guard tests the truthiness of the string
rather than its word count. -/
theorem c6_compression_ratio_guard (backend : Backend) (dfs : DataFS)
    (c : Nat) (t : Task) (txt : String) (ml : Nat) (resp : String)
    (hty : t.type = .text_summarization)
    (htext : dictGet t.input_data "text" (.str "") = .str txt)
    (hml : dictGet t.input_data "max_length" (.nat 150) = .nat ml)
    (hback : ∀ req, backend req = .ok resp) :
    (txt = "" →
      (execute_task backend dfs c t).result
        = .ok [("original_length", .nat 0), ("summary", .str resp),
               ("summary_length", .nat (wordCount resp)),
               ("compression_ratio", .nat 0)]) ∧
    (wordCount txt ≠ 0 →
      (execute_task backend dfs c t).result
        = .ok [("original_length", .nat (wordCount txt)),
               ("summary", .str resp),
               ("summary_length", .nat (wordCount resp)),
               ("compression_ratio",
                 .rat ((wordCount resp : Rat) / (wordCount txt : Rat)))]) ∧
    (txt ≠ "" → wordCount txt = 0 →
      (execute_task backend dfs c t).result = .error .zeroDivisionError) := by
  have hdisp := summarize_dispatch backend dfs t txt ml resp hty htext hml hback
  refine ⟨?_, ?_, ?_⟩
  · intro h0
    subst h0
    have hw : wordCount "" = 0 := rfl
    rw [hw, bne_self_eq_false] at hdisp
    rw [if_neg Bool.false_ne_true] at hdisp
    rw [execute_task_ok hdisp]
  · intro hw0
    have hbne : (txt != "") = true := by
      have htne : txt ≠ "" := by
        intro h
        subst h
        exact hw0 rfl
      simpa using htne
    rw [if_pos hbne, if_neg hw0] at hdisp
    rw [execute_task_ok hdisp]
  · intro htne hw0
    have hbne : (txt != "") = true := by simpa using htne
    rw [if_pos hbne, if_pos hw0] at hdisp
    rw [execute_task_err hdisp]

/-- A summarization task whose input text is the single blank character. -/
def c6state : AIWorkflowBuilder :=
  (add_task (initBuilder "key" 0) TaskType.text_summarization "S" ""
    [("text", JValue.str " ")]).2

/-- Counterexample to C6 as stated: executing a summarization task whose text
is a non-empty whitespace-only string raises ZeroDivisionError, so the
computation is not division-error free. -/
theorem c6_counterexample :
    (executeTaskAt okBackend emptyDFS c6state 0).1
      = .error .zeroDivisionError := rfl

/-- A backend answering the one-word summary s. -/
def sBackend : Backend := fun _ => .ok "s"

/-- A summarization task with a two-word text, for the c6 witness. -/
def c6task : Task :=
  { id := "t0", type := TaskType.text_summarization, title := "S",
    description := "", input_data := [("text", JValue.str "w1 w2")],
    output_data := none, status := "pending", created_at := 0,
    completed_at := none }

/-- Witness for c6_compression_ratio_guard at a concrete two-word text. -/
theorem c6_witness :
    (("w1 w2" : String) = "" →
      (execute_task sBackend emptyDFS 0 c6task).result
        = .ok [("original_length", .nat 0), ("summary", .str "s"),
               ("summary_length", .nat (wordCount "s")),
               ("compression_ratio", .nat 0)]) ∧
    (wordCount "w1 w2" ≠ 0 →
      (execute_task sBackend emptyDFS 0 c6task).result
        = .ok [("original_length", .nat (wordCount "w1 w2")),
               ("summary", .str "s"),
               ("summary_length", .nat (wordCount "s")),
               ("compression_ratio",
                 .rat ((wordCount "s" : Rat) / (wordCount "w1 w2" : Rat)))]) ∧
    (("w1 w2" : String) ≠ "" → wordCount "w1 w2" = 0 →
      (execute_task sBackend emptyDFS 0 c6task).result
        = .error .zeroDivisionError) :=
  c6_compression_ratio_guard sBackend emptyDFS 0 c6task "w1 w2" 150 "s"
    rfl rfl rfl (fun _ => rfl)

/-- C9: executing a summarization task whose text is non-empty but contains no
whitespace-delimited words (for example all whitespace) raises
ZeroDivisionError and records the failure, instead of returning
compression_ratio 0: the guard tests string truthiness, not the word count. -/
theorem c9_whitespace_zero_division (backend : Backend) (dfs : DataFS)
    (c : Nat) (t : Task) (txt : String) (ml : Nat) (resp : String)
    (hty : t.type = .text_summarization)
    (htext : dictGet t.input_data "text" (.str "") = .str txt)
    (hml : dictGet t.input_data "max_length" (.nat 150) = .nat ml)
    (hback : ∀ req, backend req = .ok resp)
    (hne : txt ≠ "") (hwc : wordCount txt = 0) :
    (execute_task backend dfs c t).result = .error .zeroDivisionError ∧
    (execute_task backend dfs c t).task.status = "failed" ∧
    (execute_task backend dfs c t).task.output_data
      = some [("error", .str "division by zero")] := by
  have hdisp := summarize_dispatch backend dfs t txt ml resp hty htext hml hback
  have hbne : (txt != "") = true := by simpa using hne
  rw [if_pos hbne, if_pos hwc] at hdisp
  rw [execute_task_err hdisp]
  exact ⟨rfl, rfl, rfl⟩

/-- The whitespace-only summarization task of the c9 witness. -/
def c9task : Task :=
  { id := "t0", type := TaskType.text_summarization, title := "S",
    description := "", input_data := [("text", JValue.str " ")],
    output_data := none, status := "pending", created_at := 0,
    completed_at := none }

/-- Witness for c9_whitespace_zero_division at the blank one-space text. -/
theorem c9_witness :
    (execute_task sBackend emptyDFS 0 c9task).result
      = .error .zeroDivisionError ∧
    (execute_task sBackend emptyDFS 0 c9task).task.status = "failed" ∧
    (execute_task sBackend emptyDFS 0 c9task).task.output_data
      = some [("error", .str "division by zero")] :=
  c9_whitespace_zero_division sBackend emptyDFS 0 c9task " " 150 "s"
    rfl rfl rfl (fun _ => rfl) (by decide) rfl

end AWB
